import Mathlib

/-!
Shallow embedding of the cliagent-mention extension's pure core
(src/extension.ts and src/codeActionProvider.ts): path dialect
classification, Windows-to-WSL path conversion, cross-dialect relative
path computation, and mention/quick-fix text formatting.

Strings are modelled through their character lists; JavaScript's
string split and join are embedded as list operations.
-/

namespace CliagentMention

/-- Split a character list at every character satisfying the predicate,
mirroring the JavaScript string split method: separators are dropped and
empty pieces between adjacent separators are kept. -/
def splitCharsP (p : Char → Bool) : List Char → List (List Char)
  | [] => [[]]
  | c :: cs =>
    match splitCharsP p cs with
    | [] => [[]]
    | l :: ls => if p c then [] :: l :: ls else (c :: l) :: ls

/-- Join character-list pieces with a separator character, mirroring the
JavaScript array join method. -/
def joinWithChar (sep : Char) : List (List Char) → List Char
  | [] => []
  | [l] => l
  | l :: ls => l ++ sep :: joinWithChar sep ls

/-- ASCII letter test, the character class of the drive-letter regex. -/
def isAsciiLetter (c : Char) : Bool :=
  ('A' ≤ c && c ≤ 'Z') || ('a' ≤ c && c ≤ 'z')

/-- ASCII lowercasing of a single character, as JavaScript toLowerCase
behaves on the characters this program lowercases (drive letters). -/
def toLowerAscii (c : Char) : Char :=
  match c with
  | 'A' => 'a' | 'B' => 'b' | 'C' => 'c' | 'D' => 'd' | 'E' => 'e'
  | 'F' => 'f' | 'G' => 'g' | 'H' => 'h' | 'I' => 'i' | 'J' => 'j'
  | 'K' => 'k' | 'L' => 'l' | 'M' => 'm' | 'N' => 'n' | 'O' => 'o'
  | 'P' => 'p' | 'Q' => 'q' | 'R' => 'r' | 'S' => 's' | 'T' => 't'
  | 'U' => 'u' | 'V' => 'v' | 'W' => 'w' | 'X' => 'x' | 'Y' => 'y'
  | 'Z' => 'z'
  | c => c

/-- Test for the windowsDrivePattern regex (a drive letter, a colon, then
a backslash or forward slash at the start of the string). -/
def isWindowsPath (s : String) : Bool :=
  match s.data with
  | c1 :: c2 :: c3 :: _ =>
    isAsciiLetter c1 && c2 == ':' && (c3 == '\\' || c3 == '/')
  | _ => false

/-- Extract the drive letter of a Windows path, lowercased; none when the
string does not match the drive pattern (getWindowsDriveLetter). -/
def getWindowsDriveLetter (s : String) : Option Char :=
  match s.data with
  | c1 :: c2 :: c3 :: _ =>
    if isAsciiLetter c1 && c2 == ':' && (c3 == '\\' || c3 == '/') then
      some (toLowerAscii c1)
    else none
  | _ => none

/-- Test for the WSL mount regex with its case-insensitive flag: the
whole pattern, including the literal mnt, matches ignoring case. -/
def isWslMountPath (s : String) : Bool :=
  match s.data with
  | c0 :: c1 :: c2 :: c3 :: c4 :: c5 :: c6 :: _ =>
    c0 == '/' && toLowerAscii c1 == 'm' && toLowerAscii c2 == 'n' &&
    toLowerAscii c3 == 't' && c4 == '/' && isAsciiLetter c5 && c6 == '/'
  | _ => false

/-- Convert a Windows path to its WSL mount form: lowercase the drive
letter, drop the drive-colon prefix, turn every backslash into a forward
slash, and prepend the mount root; identity on non-Windows input
(windowsToWslPath). -/
def windowsToWslPath (s : String) : String :=
  if isWindowsPath s then
    match s.data with
    | c1 :: _ :: rest =>
      String.mk ('/' :: 'm' :: 'n' :: 't' :: '/' :: toLowerAscii c1 ::
        rest.map (fun c => if c == '\\' then '/' else c))
    | _ => s
  else s

example : windowsToWslPath "C:\\Users\\test\\file.txt" = "/mnt/c/Users/test/file.txt" := by decide
example : isWindowsPath "C:\\x" = true := by decide
example : isWindowsPath "/mnt/c/x" = false := by decide
example : isWslMountPath "/mnt/c/x" = true := by decide
example : isWslMountPath "/MNT/c/x" = true := by decide
example : getWindowsDriveLetter "E:\\work" = some 'e' := by decide

/-- Path dialect of an input string, as the specification names the three
buckets decided by the two classification predicates. -/
inductive PathDialect where
  | nativePosix
  | nativeWindows
  | wslMount
deriving DecidableEq

/-- Classify a raw path string into its dialect: the Windows drive
pattern wins, then the WSL mount pattern, and everything else is native
POSIX (the two patterns are disjoint, so the order is immaterial). -/
def classifyDialect (s : String) : PathDialect :=
  if isWindowsPath s then .nativeWindows
  else if isWslMountPath s then .wslMount
  else .nativePosix

/-- Host platform of the Node process, deciding which flavour the
platform-native path module uses. -/
inductive HostPlatform where
  | windows
  | posix
deriving DecidableEq

/-- Separator character of the platform-native path module. -/
def sepChar : HostPlatform → Char
  | .windows => '\\'
  | .posix => '/'

/-- Non-empty path segments of a string, split at the characters the
predicate accepts. -/
def segsBy (p : Char → Bool) (s : String) : List String :=
  ((splitCharsP p s.data).map String.mk).filter (· ≠ "")

/-- Segments of a POSIX path (split at forward slashes). -/
def posixSegs : String → List String :=
  segsBy (· == '/')

/-- Segments of a Windows path (split at either separator, both of which
the Windows path module accepts). -/
def win32Segs : String → List String :=
  segsBy (fun c => c == '\\' || c == '/')

/-- Length of the longest common prefix of two segment lists. -/
def commonPrefixLen : List String → List String → Nat
  | a :: as, b :: bs => if a = b then commonPrefixLen as bs + 1 else 0
  | _, _ => 0

/-- Segment-wise relative path parts: one parent-directory step per
remaining from-segment past the common prefix, then the remaining
to-segments. -/
def relativeParts (fromSegs toSegs : List String) : List String :=
  let n := commonPrefixLen fromSegs toSegs
  List.replicate (fromSegs.length - n) ".." ++ toSegs.drop n

/-- Join path parts with a separator character into a string. -/
def joinString (sep : Char) (parts : List String) : String :=
  String.mk (joinWithChar sep (parts.map String.data))

/-- Modelled from the spec: the Node path/posix relative function, which
the source calls but whose code is outside this repository, embedded as
the segment-wise algorithm of the specification (strip common leading
segments, one parent step per remaining from-segment, forward-slash
joined). -/
def posixRelative (fromPath toPath : String) : String :=
  joinString '/' (relativeParts (posixSegs fromPath) (posixSegs toPath))

/-- Modelled from the spec: the Node path/win32 relative function (the
platform-native module on a Windows host), embedded as the same
segment-wise algorithm with backslash-joined output. -/
def win32Relative (fromPath toPath : String) : String :=
  joinString '\\' (relativeParts (win32Segs fromPath) (win32Segs toPath))

/-- Modelled from the spec: the platform-native Node path relative
function, dispatching on the host platform. -/
def nativeRelative : HostPlatform → String → String → String
  | .windows => win32Relative
  | .posix => posixRelative

/-- Replace every occurrence of the platform separator with a forward
slash, as the split-and-join in the default branch of toRelative does. -/
def sepNormalize (sep : Char) (s : String) : String :=
  String.mk (joinWithChar '/' (splitCharsP (· == sep) s.data))

/-- Guard of the cross-drive branch: both drive letters present and
different (lowercased comparison). -/
def drivesDiffer (fromPath toPath : String) : Bool :=
  match getWindowsDriveLetter fromPath, getWindowsDriveLetter toPath with
  | some a, some b => a != b
  | _, _ => false

/-- Relative path from a terminal working directory to a file path,
handling the Windows-editor-plus-WSL-terminal dialect mixes (toRelative,
on two present paths). The ordered branches follow the source: cross
drive Windows passthrough, WSL-from with Windows-to, Windows-from with
WSL-to, then the platform-native default with separator normalization
for non-Windows from-paths. -/
def toRelative (plat : HostPlatform) (fromPath toPath : String) : String :=
  if isWindowsPath fromPath && isWindowsPath toPath && drivesDiffer fromPath toPath then
    toPath
  else if isWslMountPath fromPath && isWindowsPath toPath then
    posixRelative fromPath (windowsToWslPath toPath)
  else if isWindowsPath fromPath && isWslMountPath toPath then
    posixRelative (windowsToWslPath fromPath) toPath
  else
    let relativePath := nativeRelative plat fromPath toPath
    if isWindowsPath fromPath then relativePath
    else sepNormalize (sepChar plat) relativePath

/-- Lift of toRelative to possibly-absent arguments: the source returns
undefined exactly when the from or to input is absent. -/
def toRelativeOpt (plat : HostPlatform) (fromPath toPath : Option String) : Option String :=
  match fromPath, toPath with
  | some f, some t => some (toRelative plat f t)
  | _, _ => none

example : toRelative .posix "/mnt/c/home/x/proj" "C:\\home\\x\\note.txt" = "../note.txt" := by decide
example : toRelative .windows "/mnt/c/home/x/proj" "C:\\home\\x\\note.txt" = "../note.txt" := by decide
example : toRelative .posix "E:\\work" "C:\\data\\f.txt" = "C:\\data\\f.txt" := by decide
example : toRelative .posix "/a/b/c" "/a/d" = "../../d" := by decide
example : toRelative .windows "/a/b/c" "/a/d" = "../../d" := by decide
example : toRelative .windows "C:\\Users\\x\\proj\\src" "C:\\Users\\x\\note.txt" = "..\\..\\note.txt" := by decide
example : toRelative .posix "/a/b/c" "/a/b/c" = "" := by decide

/-- Rendering mode of a mention, one per registered command. -/
inductive MentionFormat where
  | claudeCode
  | codex
  | custom
deriving DecidableEq

/-- Line-range suffix in the Claude Code style (getClaudeCodeFormatLineSelected). -/
def getClaudeCodeFormatLineSelected (startLine endLine : Nat) : String :=
  if startLine = endLine then "#L" ++ toString startLine
  else "#L" ++ toString startLine ++ "-" ++ toString endLine

/-- Line-range suffix in the Codex style (getCodexFormatLineSelected). -/
def getCodexFormatLineSelected (startLine endLine : Nat) : String :=
  if startLine = endLine then ":" ++ toString startLine
  else ":" ++ toString startLine ++ "-" ++ toString endLine

/-- Line-range suffix in the custom style, built from the configured
suffix string at call time (getCustomFormatLineSelected). -/
def getCustomFormatLineSelected (suffixString : String) (startLine endLine : Nat) : String :=
  if startLine = endLine then suffixString ++ toString startLine
  else suffixString ++ toString startLine ++ "-" ++ toString endLine

/-- Formatter the command dispatch passes to setMentionStrings for each
rendering mode. -/
def formatLineSelected (fmt : MentionFormat) (suffixString : String)
    (startLine endLine : Nat) : String :=
  match fmt with
  | .claudeCode => getClaudeCodeFormatLineSelected startLine endLine
  | .codex => getCodexFormatLineSelected startLine endLine
  | .custom => getCustomFormatLineSelected suffixString startLine endLine

/-- Mention text assembled by setMentionStrings from a present, non-empty
relative path: configured prefix, the relative path, the formatted line
range when a selection is present, and a single trailing space. The
selection is the 1-based inclusive line pair the caller derives from the
editor. -/
def mentionText (prefixString suffixString relativePath : String)
    (selection : Option (Nat × Nat)) (fmt : MentionFormat) : String :=
  let base := prefixString ++ relativePath
  let withLine :=
    match selection with
    | some (startLine, endLine) =>
      base ++ formatLineSelected fmt suffixString startLine endLine
    | none => base
  withLine ++ " "

/-- Text setMentionStrings sends to the terminal, none when nothing is
emitted: the guard treats an absent relative path and the empty string
alike (JavaScript falsiness), returning before any text is sent. -/
def setMentionStringsText (prefixString suffixString : String)
    (relativePath : Option String) (selection : Option (Nat × Nat))
    (fmt : MentionFormat) : Option String :=
  match relativePath with
  | none => none
  | some r =>
    if r = "" then none
    else some (mentionText prefixString suffixString r selection fmt)

/-- Severity of a diagnostic, the four values of the editor enum. -/
inductive DiagnosticSeverity where
  | error
  | warning
  | information
  | hint
deriving DecidableEq

/-- Render a diagnostic severity as text (getDiagnosticSeverityString). -/
def getDiagnosticSeverityString : DiagnosticSeverity → String
  | .error => "Error"
  | .warning => "Warning"
  | .information => "Information"
  | .hint => "Hint"

/-- Block sendToTerminal writes for a quick fix: the configured prompt, a
blank line, the at-mention of the file with a Claude Code style line
marker built from the diagnostic's 0-based line range converted to
1-based, then the severity and message. -/
def sendToTerminalText (quickFixPrompt filePath : String)
    (rangeStartLine rangeEndLine : Nat) (severity : DiagnosticSeverity)
    (message : String) : String :=
  let startLine := rangeStartLine + 1
  let endLine := rangeEndLine + 1
  let mention :=
    "@" ++ filePath ++
      (if startLine = endLine then "#L" ++ toString startLine
       else "#L" ++ toString startLine ++ "-" ++ toString endLine)
  quickFixPrompt ++ "\n\n" ++ mention ++ "\n" ++
    getDiagnosticSeverityString severity ++ ": " ++ message

example : sendToTerminalText "P" "f.py" 9 9 .error "m" = "P\n\n@f.py#L10\nError: m" := by decide
example : sendToTerminalText "P" "f.py" 9 14 .warning "m" = "P\n\n@f.py#L10-15\nWarning: m" := by decide
example : mentionText "@" ":" "a/b.js" none .codex = "@a/b.js " := by decide
example : mentionText "@" ":" "a/b.js" (some (15, 15)) .codex = "@a/b.js:15 " := by decide
example : mentionText "@" ":" "a/b.js" (some (15, 30)) .claudeCode = "@a/b.js#L15-30 " := by decide
example : mentionText "#" "#L" "a/b.js" (some (15, 30)) .custom = "#a/b.js#L15-30 " := by decide

/-- Claim-side pattern for the NativeWindows classification: a drive
letter, a colon, then a backslash or forward slash. -/
def specWindowsPattern (s : String) : Bool :=
  match s.data with
  | c1 :: c2 :: c3 :: _ =>
    isAsciiLetter c1 && c2 == ':' && (c3 == '\\' || c3 == '/')
  | _ => false

/-- Claim-side pattern for the WslMount classification as the claim
words it: a literal lowercase mnt mount root with only the drive segment
matched case-insensitively. -/
def specWslPattern (s : String) : Bool :=
  match s.data with
  | c0 :: c1 :: c2 :: c3 :: c4 :: c5 :: c6 :: _ =>
    c0 == '/' && c1 == 'm' && c2 == 'n' && c3 == 't' && c4 == '/' &&
    isAsciiLetter c5 && c6 == '/'
  | _ => false

/-- Amended claim-side pattern for the WslMount classification: the whole
mount pattern, the mnt literal included, matched case-insensitively. -/
def specWslPatternCI (s : String) : Bool :=
  match s.data with
  | c0 :: c1 :: c2 :: c3 :: c4 :: c5 :: c6 :: _ =>
    c0 == '/' && toLowerAscii c1 == 'm' && toLowerAscii c2 == 'n' &&
    toLowerAscii c3 == 't' && c4 == '/' && isAsciiLetter c5 && c6 == '/'
  | _ => false

/-- Claim-side quick-fix block as the claim words it: the line marker
values taken directly from the 0-based diagnostic range. -/
def specQuickFixBlockZeroBased (quickFixPrompt filePath : String)
    (rangeStartLine rangeEndLine : Nat) (severityText message : String) : String :=
  quickFixPrompt ++ "\n\n@" ++ filePath ++
    (if rangeStartLine = rangeEndLine then "#L" ++ toString rangeStartLine
     else "#L" ++ toString rangeStartLine ++ "-" ++ toString rangeEndLine) ++
    "\n" ++ severityText ++ ": " ++ message

/-- Spec-side restatement of toRelative as an unordered closed case
analysis over the dialect pair, the form the refinement claim compares
the ordered conditional chain against. -/
def toRelativeCases (plat : HostPlatform) (fromPath toPath : String) : String :=
  let dflt :=
    let relativePath := nativeRelative plat fromPath toPath
    if isWindowsPath fromPath then relativePath
    else sepNormalize (sepChar plat) relativePath
  match classifyDialect fromPath, classifyDialect toPath with
  | .nativeWindows, .nativeWindows =>
    if drivesDiffer fromPath toPath then toPath else dflt
  | .wslMount, .nativeWindows => posixRelative fromPath (windowsToWslPath toPath)
  | .nativeWindows, .wslMount => posixRelative (windowsToWslPath fromPath) toPath
  | _, _ => dflt

/-! Helper lemmas shared by the claim theorems. -/

/-- A string matching the Windows drive pattern never matches the WSL
mount pattern: the former starts with a letter, the latter with a slash. -/
theorem windows_wsl_disjoint (s : String) :
    (isWindowsPath s && isWslMountPath s) = false := by
  unfold isWindowsPath isWslMountPath
  rcases hdat : s.data with _ | ⟨c0, _ | ⟨c1, _ | ⟨c2, _ | ⟨c3, _ | ⟨c4, _ | ⟨c5, _ | ⟨c6, rest⟩⟩⟩⟩⟩⟩⟩
  · simp
  · simp
  · simp
  · simp
  · simp
  · simp
  · simp
  · by_cases h : c0 = '/'
    · subst h
      have hl : isAsciiLetter '/' = false := by decide
      simp [hl]
    · simp [beq_eq_false_iff_ne.mpr h]

theorem wsl_not_windows {s : String} (h : isWslMountPath s = true) :
    isWindowsPath s = false := by
  have := windows_wsl_disjoint s
  rw [h, Bool.and_true] at this
  exact this

theorem windows_not_wsl {s : String} (h : isWindowsPath s = true) :
    isWslMountPath s = false := by
  have := windows_wsl_disjoint s
  rw [h, Bool.true_and] at this
  exact this

/-- A Windows path always has an extractable drive letter. -/
theorem drive_letter_of_windows {s : String} (h : isWindowsPath s = true) :
    ∃ c, getWindowsDriveLetter s = some c := by
  unfold isWindowsPath at h
  unfold getWindowsDriveLetter
  rcases hdat : s.data with _ | ⟨c1, _ | ⟨c2, _ | ⟨c3, rest⟩⟩⟩ <;> rw [hdat] at h
  · simp at h
  · simp at h
  · simp at h
  · refine ⟨toLowerAscii c1, ?_⟩
    simp at h ⊢
    tauto

/-- Comparing a path with itself never reports different drives. -/
theorem drivesDiffer_self (p : String) : drivesDiffer p p = false := by
  unfold drivesDiffer
  cases getWindowsDriveLetter p <;> simp

theorem commonPrefixLen_self (l : List String) : commonPrefixLen l l = l.length := by
  induction l with
  | nil => rfl
  | cons a as ih => simp [commonPrefixLen, ih]

theorem relativeParts_self (l : List String) : relativeParts l l = [] := by
  simp [relativeParts, commonPrefixLen_self]

theorem joinString_nil (sep : Char) : joinString sep [] = "" := rfl

theorem nativeRelative_self (plat : HostPlatform) (p : String) :
    nativeRelative plat p p = "" := by
  cases plat <;>
    simp [nativeRelative, win32Relative, posixRelative, relativeParts_self, joinString_nil]

theorem sepNormalize_empty (sep : Char) : sepNormalize sep "" = "" := rfl

/-- Characters inside the pieces of a split never satisfy the split
predicate. -/
theorem mem_splitCharsP {p : Char → Bool} :
    ∀ {l piece : List Char}, piece ∈ splitCharsP p l → ∀ {c}, c ∈ piece → p c = false := by
  intro l
  induction l with
  | nil =>
    intro piece hpc c hc
    simp [splitCharsP] at hpc
    subst hpc
    simp at hc
  | cons c0 cs ih =>
    intro piece hpc c hc
    unfold splitCharsP at hpc
    rcases hrec : splitCharsP p cs with _ | ⟨l0, ls⟩
    · rw [hrec] at hpc
      simp at hpc
      subst hpc
      simp at hc
    · rw [hrec] at hpc
      cases hp : p c0
      · rw [hp] at hpc
        simp only [Bool.false_eq_true, if_false, List.mem_cons] at hpc
        rcases hpc with h1 | h2
        · subst h1
          rcases List.mem_cons.mp hc with h3 | h4
          · subst h3; exact hp
          · exact ih (hrec ▸ List.mem_cons_self l0 ls) h4
        · exact ih (hrec ▸ List.mem_cons_of_mem l0 h2) hc
      · rw [hp] at hpc
        simp only [if_true] at hpc
        rcases List.mem_cons.mp hpc with h1 | h2
        · subst h1; simp at hc
        · exact ih (hrec ▸ h2) hc

/-- Every character of a join is the separator or comes from a piece. -/
theorem mem_joinWithChar {sep c : Char} :
    ∀ {ls : List (List Char)}, c ∈ joinWithChar sep ls → c = sep ∨ ∃ l ∈ ls, c ∈ l := by
  intro ls
  induction ls with
  | nil =>
    intro h
    simp [joinWithChar] at h
  | cons l0 ls ih =>
    intro h
    cases ls with
    | nil =>
      simp only [joinWithChar] at h
      exact Or.inr ⟨l0, List.mem_cons_self l0 [], h⟩
    | cons l1 ls' =>
      simp only [joinWithChar] at h
      rcases List.mem_append.mp h with h1 | h2
      · exact Or.inr ⟨l0, List.mem_cons_self _ _, h1⟩
      · rcases List.mem_cons.mp h2 with h3 | h4
        · exact Or.inl h3
        · rcases ih h4 with h5 | ⟨l, hl, hcl⟩
          · exact Or.inl h5
          · exact Or.inr ⟨l, List.mem_cons_of_mem _ hl, hcl⟩

/-- Normalizing wipes every occurrence of a separator other than the
forward slash from the string. -/
theorem sep_not_mem_sepNormalize {sep : Char} (h : sep ≠ '/') (s : String) :
    sep ∉ (sepNormalize sep s).data := by
  intro hmem
  have hdata : (sepNormalize sep s).data = joinWithChar '/' (splitCharsP (· == sep) s.data) := rfl
  rw [hdata] at hmem
  rcases mem_joinWithChar hmem with h1 | ⟨l, hl, hcl⟩
  · exact h h1
  · have := mem_splitCharsP hl hcl
    simp at this

/-- A letter lowercased is still a letter. -/
theorem isAsciiLetter_toLowerAscii {c : Char} (h : isAsciiLetter c = true) :
    isAsciiLetter (toLowerAscii c) = true := by
  unfold toLowerAscii
  split <;> first | decide | exact h

/-! Claim theorems. -/

/-- C1: when the from-path is a WSL mount and the to-path is native
Windows, toRelative converts the to-path with windowsToWslPath and
returns the POSIX segment-wise relative path to it; symmetrically, when
the from-path is native Windows and the to-path is a WSL mount, it
converts the from-path and returns the POSIX relative path from the
converted string; in particular, from the mount of the note's project
directory to the Windows-style note file the result is one parent step
followed by the file name. -/
theorem toRelative_mixed_dialect :
    (∀ (plat : HostPlatform) (fromPath toPath : String),
      isWslMountPath fromPath = true → isWindowsPath toPath = true →
      toRelative plat fromPath toPath = posixRelative fromPath (windowsToWslPath toPath)) ∧
    (∀ (plat : HostPlatform) (fromPath toPath : String),
      isWindowsPath fromPath = true → isWslMountPath toPath = true →
      toRelative plat fromPath toPath = posixRelative (windowsToWslPath fromPath) toPath) ∧
    (∀ plat, toRelative plat "/mnt/c/home/x/proj" "C:\\home\\x\\note.txt" = "../note.txt") := by
  refine ⟨?_, ?_, ?_⟩
  · intro plat fromPath toPath hf ht
    have hfw : isWindowsPath fromPath = false := wsl_not_windows hf
    simp [toRelative, hfw, hf, ht]
  · intro plat fromPath toPath hf ht
    have htw : isWindowsPath toPath = false := wsl_not_windows ht
    have hfs : isWslMountPath fromPath = false := windows_not_wsl hf
    simp [toRelative, hf, htw, hfs, ht]
  · intro plat
    cases plat <;> decide

/-- Witness for C1 at a concrete WSL-mount from-path and Windows to-path. -/
theorem toRelative_mixed_dialect_witness :
    isWslMountPath "/mnt/c/home/x/proj" = true ∧
    toRelative HostPlatform.posix "/mnt/c/home/x/proj" "C:\\home\\x\\note.txt" =
      posixRelative "/mnt/c/home/x/proj" (windowsToWslPath "C:\\home\\x\\note.txt") :=
  ⟨by decide, toRelative_mixed_dialect.1 HostPlatform.posix _ _ (by decide) (by decide)⟩

/-- C2: when both paths are native Windows paths on different drives
(drive letters compared lowercased), toRelative returns the to-path
unchanged, backslashes and all; in particular, relativizing a work
directory on one drive to a file on another returns the file's absolute
path. -/
theorem toRelative_cross_drive :
    (∀ (plat : HostPlatform) (fromPath toPath : String),
      isWindowsPath fromPath = true → isWindowsPath toPath = true →
      getWindowsDriveLetter fromPath ≠ getWindowsDriveLetter toPath →
      toRelative plat fromPath toPath = toPath) ∧
    (∀ plat, toRelative plat "E:\\work" "C:\\data\\f.txt" = "C:\\data\\f.txt") := by
  constructor
  · intro plat fromPath toPath hf ht hd
    obtain ⟨a, ha⟩ := drive_letter_of_windows hf
    obtain ⟨b, hb⟩ := drive_letter_of_windows ht
    have hab : a ≠ b := by
      intro hcontra
      exact hd (by rw [ha, hb, hcontra])
    have hdd : drivesDiffer fromPath toPath = true := by
      unfold drivesDiffer
      rw [ha, hb]
      simp [bne_iff_ne, hab]
    simp [toRelative, hf, ht, hdd]
  · intro plat
    cases plat <;> decide

/-- Witness for C2 at the cross-drive pair of the specification. -/
theorem toRelative_cross_drive_witness :
    getWindowsDriveLetter "E:\\work" ≠ getWindowsDriveLetter "C:\\data\\f.txt" ∧
    toRelative HostPlatform.windows "E:\\work" "C:\\data\\f.txt" = "C:\\data\\f.txt" :=
  ⟨by decide, toRelative_cross_drive.1 HostPlatform.windows _ _ (by decide) (by decide) (by decide)⟩

/-- C8: relativizing any path to itself yields the empty string on every
platform and in every dialect. -/
theorem toRelative_self_empty (plat : HostPlatform) (p : String) :
    toRelative plat p p = "" := by
  have hdd : drivesDiffer p p = false := drivesDiffer_self p
  have hnr : nativeRelative plat p p = "" := nativeRelative_self plat p
  cases hw : isWindowsPath p with
  | true =>
    have hs : isWslMountPath p = false := windows_not_wsl hw
    simp [toRelative, hw, hs, hdd, hnr]
  | false =>
    simp [toRelative, hw, hdd, hnr, sepNormalize_empty]

/-- C3: in the default branch of toRelative (none of the three guards
fires), the result keeps the platform-native computation untouched when
the from-path is native Windows, and otherwise any occurrence of the
platform separator in the result can only be a forward slash; from one
POSIX directory to another the result walks up with dot-dot segments and
forward slashes on either platform. -/
theorem toRelative_default_separators :
    (∀ (plat : HostPlatform) (fromPath toPath : String),
      (isWindowsPath fromPath && isWindowsPath toPath && drivesDiffer fromPath toPath) = false →
      (isWslMountPath fromPath && isWindowsPath toPath) = false →
      (isWindowsPath fromPath && isWslMountPath toPath) = false →
      (isWindowsPath fromPath = true →
        toRelative plat fromPath toPath = nativeRelative plat fromPath toPath) ∧
      (isWindowsPath fromPath = false →
        sepChar plat = '/' ∨ sepChar plat ∉ (toRelative plat fromPath toPath).data)) ∧
    (∀ plat, toRelative plat "/a/b/c" "/a/d" = "../../d") := by
  constructor
  · intro plat fromPath toPath hg1 hg2 hg3
    constructor
    · intro hw
      have hsf : isWslMountPath fromPath = false := windows_not_wsl hw
      simp only [hw, Bool.true_and] at hg1 hg3
      rcases Bool.and_eq_false_iff.mp hg1 with h | h <;>
        simp [toRelative, hw, hsf, hg3, h]
    · intro hw
      by_cases hsep : sepChar plat = '/'
      · exact Or.inl hsep
      · refine Or.inr ?_
        have hres : toRelative plat fromPath toPath =
            sepNormalize (sepChar plat) (nativeRelative plat fromPath toPath) := by
          simp [toRelative, hg1, hg2, hg3, hw]
        rw [hres]
        exact sep_not_mem_sepNormalize hsep _
  · intro plat
    cases plat <;> decide

/-- Witness for C3 at the POSIX pair of the specification. -/
theorem toRelative_default_separators_witness :
    (isWslMountPath "/a/b/c" && isWindowsPath "/a/d") = false ∧
    (sepChar HostPlatform.windows = '/' ∨
      sepChar HostPlatform.windows ∉ (toRelative HostPlatform.windows "/a/b/c" "/a/d").data) :=
  ⟨by decide,
    (toRelative_default_separators.1 HostPlatform.windows "/a/b/c" "/a/d"
      (by decide) (by decide) (by decide)).2 (by decide)⟩

/-- C9: the Windows drive pattern and the WSL mount pattern never both
match a string, the three guards of toRelative are pairwise exclusive,
and the ordered conditional chain computes the same result as the
unordered closed case analysis over the classified dialect pair. -/
theorem toRelative_cases_equiv :
    (∀ s, (isWindowsPath s && isWslMountPath s) = false) ∧
    (∀ fromPath toPath : String,
      ((isWindowsPath fromPath && isWindowsPath toPath && drivesDiffer fromPath toPath) &&
        (isWslMountPath fromPath && isWindowsPath toPath)) = false ∧
      ((isWindowsPath fromPath && isWindowsPath toPath && drivesDiffer fromPath toPath) &&
        (isWindowsPath fromPath && isWslMountPath toPath)) = false ∧
      ((isWslMountPath fromPath && isWindowsPath toPath) &&
        (isWindowsPath fromPath && isWslMountPath toPath)) = false) ∧
    (∀ (plat : HostPlatform) (fromPath toPath : String),
      toRelative plat fromPath toPath = toRelativeCases plat fromPath toPath) := by
  refine ⟨windows_wsl_disjoint, ?_, ?_⟩
  · intro fromPath toPath
    refine ⟨?_, ?_, ?_⟩
    · cases hwf : isWindowsPath fromPath
      · simp
      · simp [windows_not_wsl hwf]
    · cases hwt : isWindowsPath toPath
      · simp [hwt]
      · simp [windows_not_wsl hwt]
    · cases hwf : isWindowsPath fromPath
      · simp [hwf]
      · simp [windows_not_wsl hwf]
  · intro plat fromPath toPath
    cases hwf : isWindowsPath fromPath with
    | true =>
      have hsf : isWslMountPath fromPath = false := windows_not_wsl hwf
      cases hwt : isWindowsPath toPath with
      | true =>
        have hst : isWslMountPath toPath = false := windows_not_wsl hwt
        cases hdd : drivesDiffer fromPath toPath <;>
          simp [toRelative, toRelativeCases, classifyDialect, hwf, hwt, hsf, hst, hdd]
      | false =>
        cases hst : isWslMountPath toPath <;>
          simp [toRelative, toRelativeCases, classifyDialect, hwf, hwt, hsf, hst]
    | false =>
      cases hsf : isWslMountPath fromPath with
      | true =>
        cases hwt : isWindowsPath toPath with
        | true =>
          have hst : isWslMountPath toPath = false := windows_not_wsl hwt
          simp [toRelative, toRelativeCases, classifyDialect, hwf, hwt, hsf, hst]
        | false =>
          cases hst : isWslMountPath toPath <;>
            simp [toRelative, toRelativeCases, classifyDialect, hwf, hwt, hsf, hst]
      | false =>
        cases hwt : isWindowsPath toPath with
        | true =>
          have hst : isWslMountPath toPath = false := windows_not_wsl hwt
          simp [toRelative, toRelativeCases, classifyDialect, hwf, hwt, hsf, hst]
        | false =>
          cases hst : isWslMountPath toPath <;>
            simp [toRelative, toRelativeCases, classifyDialect, hwf, hwt, hsf, hst]

/-- C4 counterexample: a string with an uppercase mount root is
classified WslMount by the code even though it does not match the
claim's pattern, whose mnt literal is case-sensitive — the regex's
case-insensitive flag covers the whole pattern, not just the drive
segment. -/
theorem classify_wsl_pattern_counterexample :
    classifyDialect "/MNT/c/x" = PathDialect.wslMount ∧
    specWslPattern "/MNT/c/x" = false := by
  constructor
  · decide
  · decide

/-- C4 amended: a string is classified NativeWindows exactly when it
matches the drive-letter pattern, WslMount exactly when it matches the
mount pattern with the whole pattern (the mnt literal included) compared
case-insensitively, and NativePosix exactly when neither pattern
matches. -/
theorem classify_dialect_patterns (s : String) :
    (classifyDialect s = PathDialect.nativeWindows ↔ specWindowsPattern s = true) ∧
    (classifyDialect s = PathDialect.wslMount ↔ specWslPatternCI s = true) ∧
    (classifyDialect s = PathDialect.nativePosix ↔
      (specWindowsPattern s || specWslPatternCI s) = false) := by
  have hw : specWindowsPattern s = isWindowsPath s := rfl
  have hs : specWslPatternCI s = isWslMountPath s := rfl
  rw [hw, hs]
  cases hwin : isWindowsPath s with
  | true =>
    have := windows_not_wsl hwin
    simp [classifyDialect, hwin, this]
  | false =>
    cases hwsl : isWslMountPath s <;> simp [classifyDialect, hwin, hwsl]

/-- C5: the emitted mention is the configured prefix, the relative path,
the mode's line suffix when a selection is present (hash-L style for
Claude Code, colon style for Codex, the live configured suffix for
Custom, with the range collapsed to a single number when the bounds
coincide), and a single trailing space; with no selection no suffix at
all is appended. -/
theorem mention_format_assembly (prefixString suffixString relativePath : String)
    (selection : Option (Nat × Nat)) (fmt : MentionFormat) :
    mentionText prefixString suffixString relativePath selection fmt =
      prefixString ++ relativePath ++
        (match selection with
         | none => ""
         | some (startLine, endLine) =>
           match fmt with
           | .claudeCode =>
             if startLine = endLine then "#L" ++ toString startLine
             else "#L" ++ toString startLine ++ "-" ++ toString endLine
           | .codex =>
             if startLine = endLine then ":" ++ toString startLine
             else ":" ++ toString startLine ++ "-" ++ toString endLine
           | .custom =>
             if startLine = endLine then suffixString ++ toString startLine
             else suffixString ++ toString startLine ++ "-" ++ toString endLine) ++ " " := by
  cases selection with
  | none => simp [mentionText]
  | some p =>
    obtain ⟨startLine, endLine⟩ := p
    cases fmt <;>
      simp [mentionText, formatLineSelected, getClaudeCodeFormatLineSelected,
        getCodexFormatLineSelected, getCustomFormatLineSelected, String.append_assoc]

/-- C6 counterexample: on a single-line diagnostic at line zero the code
emits the 1-based marker, not the block built from the raw 0-based range
the claim describes. -/
theorem quickfix_block_counterexample :
    sendToTerminalText "P" "f.py" 0 0 DiagnosticSeverity.error "m" = "P\n\n@f.py#L1\nError: m" ∧
    (sendToTerminalText "P" "f.py" 0 0 DiagnosticSeverity.error "m" ==
      specQuickFixBlockZeroBased "P" "f.py" 0 0
        (getDiagnosticSeverityString DiagnosticSeverity.error) "m") = false := by
  constructor
  · decide
  · decide

/-- C6 amended: the quick-fix block is the configured prompt, a blank
line, the at-mention of the path with a hash-L marker holding the
diagnostic's 0-based lines converted to 1-based by adding one (the end
part present exactly when the range spans more than one line), then the
severity word — one of Error, Warning, Information, Hint — a colon-space,
and the message. -/
theorem quickfix_block_format (quickFixPrompt filePath : String)
    (rangeStartLine rangeEndLine : Nat) (severity : DiagnosticSeverity) (message : String) :
    sendToTerminalText quickFixPrompt filePath rangeStartLine rangeEndLine severity message =
      quickFixPrompt ++ "\n\n@" ++ filePath ++
        (if rangeStartLine = rangeEndLine then "#L" ++ toString (rangeStartLine + 1)
         else "#L" ++ toString (rangeStartLine + 1) ++ "-" ++ toString (rangeEndLine + 1)) ++
        "\n" ++ getDiagnosticSeverityString severity ++ ": " ++ message ∧
    getDiagnosticSeverityString severity ∈
      (["Error", "Warning", "Information", "Hint"] : List String) := by
  constructor
  · have hx : ∀ X : String, "\n\n" ++ ("@" ++ X) = "\n\n@" ++ X := by
      intro X
      rw [← String.append_assoc]
      rfl
    unfold sendToTerminalText
    by_cases h : rangeStartLine = rangeEndLine <;>
      simp [h, String.append_assoc] <;> rw [hx]
  · cases severity <;> simp [getDiagnosticSeverityString]

/-- C7 counterexample: windowsToWslPath leaves a non-Windows string
untouched, and that output does not classify as a WSL mount, so
reclassification does not always yield WslMount over all input
strings. -/
theorem windowsToWsl_reclassify_counterexample :
    windowsToWslPath "hello" = "hello" ∧
    isWslMountPath (windowsToWslPath "hello") = false := by
  constructor
  · decide
  · decide

/-- C7 amended: on every input that matches the Windows drive pattern,
the output of windowsToWslPath classifies as a WSL mount path. -/
theorem windowsToWsl_reclassify (s : String) (h : isWindowsPath s = true) :
    isWslMountPath (windowsToWslPath s) = true := by
  have hcopy := h
  unfold isWindowsPath at hcopy
  unfold windowsToWslPath
  rw [if_pos h]
  rcases hdat : s.data with _ | ⟨c1, _ | ⟨c2, _ | ⟨c3, rest⟩⟩⟩ <;> rw [hdat] at hcopy
  · simp at hcopy
  · simp at hcopy
  · simp at hcopy
  · simp only [List.map_cons]
    simp at hcopy
    obtain ⟨⟨hl, -⟩, hsep⟩ := hcopy
    have hc3 : (if c3 == '\\' then '/' else c3) = '/' := by
      rcases hsep with h3 | h3 <;> subst h3 <;> decide
    unfold isWslMountPath
    simp only [String.data]
    rw [hc3]
    have hlow := isAsciiLetter_toLowerAscii hl
    simp [hlow]
    decide

/-- Witness for C7 at a concrete Windows path. -/
theorem windowsToWsl_reclassify_witness :
    isWindowsPath "C:\\Users" = true ∧
    isWslMountPath (windowsToWslPath "C:\\Users") = true :=
  ⟨by decide, windowsToWsl_reclassify "C:\\Users" (by decide)⟩

/-- C10: the command emits nothing exactly when the relative path is
absent or empty — the guard treats the empty string like the absent
sentinel, so not even the prefix and trailing space are sent — and
toRelative's lifted form returns the absent sentinel exactly when the
from or to input is absent. -/
theorem empty_relative_no_emit (prefixString suffixString : String)
    (selection : Option (Nat × Nat)) (fmt : MentionFormat) (plat : HostPlatform)
    (relativePath fromPath toPath : Option String) :
    (setMentionStringsText prefixString suffixString relativePath selection fmt = none ↔
      relativePath = none ∨ relativePath = some "") ∧
    (toRelativeOpt plat fromPath toPath = none ↔ fromPath = none ∨ toPath = none) := by
  constructor
  · cases relativePath with
    | none => simp [setMentionStringsText]
    | some r =>
      by_cases h : r = "" <;> simp [setMentionStringsText, h]
  · cases fromPath <;> cases toPath <;> simp [toRelativeOpt]

end CliagentMention
